import Mathlib

/-!
Shallow embedding of the market-brief RAG system, covering the retrieval
agent (`agents/retrieval_agent.py`), the analysis agent
(`agents/analysis_agent.py`), the orchestrator (`orchestrator/main.py`)
and the data-ingestion fetch helper (`data_ingestion/fetch_data.py`).

Python floats are modelled as rationals (`ℚ`), string-keyed dictionaries
as association lists, exceptions as `Except`/explicit error values, and
the external FAISS similarity index as a list of documents with an
abstract per-query score function (lower score = nearer).
-/

namespace MarketBrief

/-- `langchain_core.documents.Document`: text content plus key-value
metadata (values modelled as strings). -/
structure Document where
  page_content : String
  metadata : List (String × String)
  deriving Repr, DecidableEq

/-- Modelled from the spec: the external FAISS similarity search returns
up to `k` nearest documents by similarity, ordered nearest-first.
`score` is the similarity distance of each stored document to the query
embedding (lower = nearer). -/
def similaritySearch (score : Document → ℚ) (docs : List Document) (k : Nat) :
    List Document :=
  (docs.insertionSort fun a b => score a ≤ score b).take k

/-- In-memory state of a `RetrieverAgent`: `self.vectorstore` is `None`
until `_load_or_create_vector_store` assigns it; the FAISS store itself
is modelled as the list of documents it holds. -/
structure AgentState where
  vectorstore : Option (List Document)
  deriving Repr, DecidableEq

/-- The dummy document `_load_or_create_vector_store` seeds a fresh index
with (`Document(page_content="initial document for empty index")`). -/
def placeholderDoc : Document :=
  { page_content := "initial document for empty index", metadata := [] }

/-- Outcome of the load attempt in `_load_or_create_vector_store`:
either the path exists and `FAISS.load_local` succeeds, or the path
exists but loading raises, or no index exists at the path. -/
inductive LoadOutcome where
  | loadedExisting (docs : List Document)
  | loadFailed
  | noPath
  deriving Repr, DecidableEq

/-- Outcome of the bootstrap attempt
(`FAISS.from_documents([placeholder])` followed by `save_local`). -/
inductive BootstrapOutcome where
  | ok
  | failed
  deriving Repr, DecidableEq

/-- `RetrieverAgent._load_or_create_vector_store` (retrieval_agent.py
lines 54-85).  Returns the resulting store contents together with a flag
recording whether a `save_local` persist happened; a bootstrap failure
re-raises, modelled as `.error`. -/
def load_or_create_vector_store (load : LoadOutcome) (boot : BootstrapOutcome) :
    Except String (List Document × Bool) :=
  match load with
  | .loadedExisting docs => .ok (docs, false)
  | .loadFailed =>
    match boot with
    | .ok => .ok ([placeholderDoc], true)
    | .failed => .error "Failed to create even an empty index"
  | .noPath =>
    match boot with
    | .ok => .ok ([placeholderDoc], true)
    | .failed => .error "Failed to create an empty index from scratch"

/-- Module-level `retriever_agent_instance` (retrieval_agent.py lines
178-188): constructed once at startup; any initialization error leaves
the instance set to `None`. -/
def retriever_agent_instance (load : LoadOutcome) (boot : BootstrapOutcome) :
    Option AgentState :=
  match load_or_create_vector_store load boot with
  | .ok (docs, _) => some { vectorstore := some docs }
  | .error _ => none

/-- Python truthiness of an optional list argument: `None` and the empty
list are both falsy. -/
def pyTruthy (m : Option (List α)) : Bool :=
  match m with
  | none => false
  | some l => !l.isEmpty

/-- Errors raised by `RetrieverAgent` methods. -/
inductive AgentError where
  | valueError (msg : String)
  deriving Repr, DecidableEq

/-- Per-document metadata, modelled as an association list. -/
abbrev Metadata := List (String × String)

/-- `RetrieverAgent.index_documents` (retrieval_agent.py lines 88-136),
success path of the external embedding/persist calls.  Returns the
Python return value (or raised error), the agent state after the call,
and whether `save_local` ran.  The per-document metadata expression
`metadata[i] if metadata and i < len(metadata) else \x7b\x7d` is modelled by
`(metadata.getD []).getD i []`, which agrees with it in every case. -/
def index_documents (st : AgentState) (documents : List String)
    (metadata : Option (List Metadata)) :
    Except AgentError Nat × AgentState × Bool :=
  if documents.isEmpty then
    (.ok 0, st, false)
  else if pyTruthy metadata && decide (documents.length ≠ (metadata.getD []).length) then
    (.error (.valueError
      "RetrieverAgent: Length of documents and metadata must match if metadata is provided."),
      st, false)
  else
    let docs_to_add := documents.enum.map fun p =>
      Document.mk p.2 ((metadata.getD []).getD p.1 [])
    let newdocs := match st.vectorstore with
      | some docs => docs ++ docs_to_add
      | none => docs_to_add
    (.ok docs_to_add.length, { vectorstore := some newdocs }, true)

/-- FastAPI `HTTPException`: status code and detail message. -/
structure HTTPError where
  status_code : Nat
  detail : String
  deriving Repr, DecidableEq

/-- `RetrieverAgent.retrieve_top_k_chunks` (retrieval_agent.py lines
139-171), success path of the external retriever call.  `score` gives,
for each query, the similarity distance of a stored document; `k`
defaults to 5 as in the source. -/
def retrieve_top_k_chunks (score : String → Document → ℚ) (st : AgentState)
    (query : String) (k : Nat := 5) : Except HTTPError (List String) :=
  match st.vectorstore with
  | none => .error
      { status_code := 500,
        detail := "RetrieverAgent: Vector store not initialized. Cannot perform retrieval." }
  | some docs =>
    .ok ((similaritySearch (score query) docs k).map Document.page_content)

/-- Request body of `POST /index_data`. -/
structure IndexRequest where
  documents : List String
  metadata : Option (List Metadata) := none
  deriving Repr, DecidableEq

/-- Request body of `POST /retrieve_chunks`; `k` defaults to 5. -/
structure RetrieveRequest where
  query : String
  k : Nat := 5
  deriving Repr, DecidableEq

/-- Response of `POST /index_data`. -/
structure IndexDataResponse where
  status : String
  indexed_count : Nat
  deriving Repr, DecidableEq

/-- Detail string of the error both endpoints raise when
`retriever_agent_instance` is `None`. -/
def notInitializedDetail : String :=
  "Retriever Agent is not initialized. Check server logs for initialization errors."

/-- `POST /index_data` endpoint (retrieval_agent.py lines 210-228); a
`ValueError` from the agent falls into the generic handler and becomes a
500.  Returns the HTTP result and the instance state after the call. -/
def index_data_endpoint (inst : Option AgentState) (req : IndexRequest) :
    Except HTTPError IndexDataResponse × Option AgentState :=
  match inst with
  | none => (.error { status_code := 500, detail := notInitializedDetail }, none)
  | some st =>
    match index_documents st req.documents req.metadata with
    | (.ok n, st', _) => (.ok { status := "success", indexed_count := n }, some st')
    | (.error (.valueError msg), st', _) =>
      (.error { status_code := 500,
                detail := "An unexpected error occurred during indexing: " ++ msg },
        some st')

/-- `POST /retrieve_chunks` endpoint (retrieval_agent.py lines 230-249).
Returns the HTTP result and the instance state after the call. -/
def retrieve_chunks_endpoint (score : String → Document → ℚ)
    (inst : Option AgentState) (req : RetrieveRequest) :
    Except HTTPError (List String) × Option AgentState :=
  match inst with
  | none => (.error { status_code := 500, detail := notInitializedDetail }, none)
  | some st =>
    match retrieve_top_k_chunks score st req.query req.k with
    | .ok chunks => (.ok chunks, some st)
    | .error e => (.error e, some st)

/-! ### Analysis agent (`agents/analysis_agent.py`) -/

/-- Input model `StockDataInput`. -/
structure StockDataInput where
  symbol : String
  name : String
  date : String
  price : ℚ
  deriving Repr, DecidableEq

/-- Input model `EarningsDataInput`; the EPS and surprise fields are
`Optional[float]`. -/
structure EarningsDataInput where
  symbol : String
  name : String
  date : String
  actual_eps : Option ℚ := none
  estimated_eps : Option ℚ := none
  surprise_percent : Option ℚ := none
  deriving Repr, DecidableEq

/-- Input model `RawMarketData`. -/
structure RawMarketData where
  stocks : List StockDataInput
  earnings_surprises : List EarningsDataInput
  deriving Repr, DecidableEq

/-- Output model `PortfolioAllocationInsight`. -/
structure PortfolioAllocationInsight where
  sector : String
  current_percentage : ℚ
  previous_percentage : ℚ
  change_points : ℚ
  deriving Repr, DecidableEq

/-- Output model `EarningsSummary`. -/
structure EarningsSummary where
  company_name : String
  symbol : String
  surprise_type : String
  percentage : ℚ
  reason_keywords : Option String := none
  deriving Repr, DecidableEq

/-- Output model `MarketSentimentInsight`. -/
structure MarketSentimentInsight where
  sentiment : String
  tilt : Option String := none
  reason : Option String := none
  deriving Repr, DecidableEq

/-- Output model `AnalyticalInsights`. -/
structure AnalyticalInsights where
  portfolio_allocation : Option PortfolioAllocationInsight := none
  earnings_summaries : List EarningsSummary
  market_sentiment : Option MarketSentimentInsight := none
  deriving Repr, DecidableEq

/-- Request model `AnalysisRequest`, with the Pydantic default AUM
percentages from the source. -/
structure AnalysisRequest where
  raw_data : RawMarketData
  asia_tech_aum_today_percent : ℚ := 22
  asia_tech_aum_yesterday_percent : ℚ := 18
  deriving Repr, DecidableEq

/-- Python `round(x, 2)`, modelled as rounding `x * 100` to the nearest
integer. -/
def round2 (q : ℚ) : ℚ := (round (q * 100) : ℤ) / 100

/-- The hardcoded reason-keyword lookup inside the earnings loop
(analysis_agent.py lines 133-137), keyed on symbol or company name. -/
def reasonLookup (symbol name : String) : Option String :=
  if symbol = "TSM" || name = "Taiwan Semiconductor Manufacturing Company" then
    some "strong AI accelerator demand"
  else if symbol = "005930.KS" || name = "Samsung Electronics Co., Ltd." then
    some "weaker memory chip and consumer electronics sales"
  else
    none

/-- The earnings-surprise loop of `analyze_market_data_endpoint`
(analysis_agent.py lines 127-146): records with a null
`surprise_percent` are skipped; for the rest a summary is appended in
order. -/
def deriveEarnings : List EarningsDataInput → List EarningsSummary
  | [] => []
  | e :: rest =>
    match e.surprise_percent with
    | some s =>
      { company_name := e.name,
        symbol := e.symbol,
        surprise_type := if 0 ≤ s then "beat" else "miss",
        percentage := |s|,
        reason_keywords := reasonLookup e.symbol e.name } :: deriveEarnings rest
    | none => deriveEarnings rest

/-- The fixed `MarketSentimentInsight` the endpoint always constructs
(analysis_agent.py lines 153-157). -/
def fixedSentiment : MarketSentimentInsight :=
  { sentiment := "neutral",
    tilt := some "cautionary tilt",
    reason := some "rising global bond yields impacting growth stock valuations" }

/-- `POST /analyze_market_data` endpoint (analysis_agent.py lines
98-169), including its 404 guard `if not portfolio_allocation_insight
and not earnings_summaries and not market_sentiment_insight`. -/
def analyze_market_data_endpoint (req : AnalysisRequest) :
    Except HTTPError AnalyticalInsights :=
  let current_pct := req.asia_tech_aum_today_percent
  let previous_pct := req.asia_tech_aum_yesterday_percent
  let change := round2 (current_pct - previous_pct)
  let portfolio_allocation_insight : Option PortfolioAllocationInsight :=
    some { sector := "Asia tech",
           current_percentage := current_pct,
           previous_percentage := previous_pct,
           change_points := change }
  let earnings_summaries := deriveEarnings req.raw_data.earnings_surprises
  let market_sentiment_insight : Option MarketSentimentInsight := some fixedSentiment
  if portfolio_allocation_insight.isNone && earnings_summaries.isEmpty
      && market_sentiment_insight.isNone then
    .error { status_code := 404,
             detail := "No analytical insights could be generated from the provided raw data." }
  else
    .ok { portfolio_allocation := portfolio_allocation_insight,
          earnings_summaries := earnings_summaries,
          market_sentiment := market_sentiment_insight }

/-! ### Orchestrator (`orchestrator/main.py`) and fetch helper
(`data_ingestion/fetch_data.py`) -/

/-- Python exceptions relevant to the orchestrator's fetch step. -/
inductive PyException where
  | typeError (msg : String)
  | requestException (msg : String)
  deriving Repr, DecidableEq

/-- Outcome of the external HTTP call the fetch helper would make to the
API agent (external collaborator). -/
inductive FetchOutcome where
  | success (data : RawMarketData)
  | networkError (msg : String)
  deriving Repr, DecidableEq

/-- The `TypeError` message Python raises when
`get_daily_market_data_from_api_agent` is called without its required
positional parameter. -/
def missingArgMsg : String :=
  "get_daily_market_data_from_api_agent() missing 1 required positional argument: api_agent_base_url"

/-- A call to `get_daily_market_data_from_api_agent`
(fetch_data.py lines 10-36) under Python call semantics: the function
requires the positional parameter `api_agent_base_url`, so a call that
supplies no base URL raises `TypeError` before the body runs; otherwise
the body performs the HTTP request, whose outcome is `outcome`. -/
def call_get_daily_market_data (arg : Option String) (outcome : FetchOutcome) :
    Except PyException RawMarketData :=
  match arg with
  | none => .error (.typeError missingArgMsg)
  | some _ =>
    match outcome with
    | .success d => .ok d
    | .networkError m => .error (.requestException m)

/-- The argument list the orchestrator actually passes at main.py line
58: `get_daily_market_data_from_api_agent()` — no arguments. -/
def orchestrator_call_args : Option String := none

/-- Step 1 of `generate_market_brief_endpoint` (main.py lines 53-63):
`requests.exceptions.RequestException` maps to 503, any other exception
to 500. -/
def fetch_data_step (outcome : FetchOutcome) : Except HTTPError RawMarketData :=
  match call_get_daily_market_data orchestrator_call_args outcome with
  | .ok d => .ok d
  | .error (.requestException m) =>
    .error { status_code := 503, detail := "Failed to connect to API Agent: " ++ m }
  | .error (.typeError m) =>
    .error { status_code := 500, detail := "Error fetching data from API Agent: " ++ m }

/-- The orchestration steps named by the spec. -/
inductive OrchStep where
  | FETCH_DATA
  | FORMAT_DOCS
  | INDEX_DOCS
  | DERIVE_INSIGHTS
  | RETRIEVE_CHUNKS
  | SYNTHESIZE
  deriving Repr, DecidableEq

/-- `generate_market_brief_endpoint` (main.py lines 46-168) up to the
fetch step, with the steps after a successful fetch abstracted as
`rest`; also records which steps were reached.  A fetch failure raises
immediately, so no later step runs. -/
def generate_market_brief (outcome : FetchOutcome)
    (rest : RawMarketData → Except HTTPError String) :
    Except HTTPError String × List OrchStep :=
  match fetch_data_step outcome with
  | .error e => (.error e, [.FETCH_DATA])
  | .ok d =>
    (rest d,
     [.FETCH_DATA, .FORMAT_DOCS, .INDEX_DOCS, .DERIVE_INSIGHTS, .RETRIEVE_CHUNKS, .SYNTHESIZE])

/-- Rendering of the allocation insight into a context sentence
(main.py lines 126-129); numbers rendered via `toString`. -/
def allocSentence (a : PortfolioAllocationInsight) : String :=
  "Portfolio: Asia tech allocation is " ++ toString a.current_percentage ++
    "% of AUM, up " ++ toString a.change_points ++ "% from " ++
    toString a.previous_percentage ++ "% yesterday."

/-- Python `dict.get(key, default)` on a JSON field that is present but
possibly null: a null value is returned as `None` and rendered `"None"`
by the f-string, so the default only applies to an absent key (never the
case for these response models). -/
def optField (v : Option String) : String :=
  match v with
  | some s => s
  | none => "None"

/-- Rendering of one earnings summary into a context sentence
(main.py lines 131-135). -/
def earningsSentence (e : EarningsSummary) : String :=
  "Earnings: " ++ e.company_name ++ " (" ++ e.symbol ++ ") " ++ e.surprise_type ++
    " estimates by " ++ toString e.percentage ++ "%. Reason: " ++
    optField e.reason_keywords ++ "."

/-- Rendering of the sentiment insight into a context sentence
(main.py lines 138-141). -/
def sentimentSentence (s : MarketSentimentInsight) : String :=
  "Sentiment: Regional sentiment is " ++ s.sentiment ++ " with a " ++
    optField s.tilt ++ " due to " ++ optField s.reason ++ "."

/-- Context assembly for the language agent (main.py lines 121-141):
start from the retrieved chunks, then append the allocation sentence if
the allocation insight is present, one sentence per earnings summary,
and the sentiment sentence if present. -/
def assembleContext (chunks : List String)
    (alloc : Option PortfolioAllocationInsight)
    (earnings : List EarningsSummary)
    (sentiment : Option MarketSentimentInsight) : List String :=
  let ctx := chunks
  let ctx := match alloc with
    | some a => ctx ++ [allocSentence a]
    | none => ctx
  let ctx := ctx ++ earnings.map earningsSentence
  match sentiment with
  | some s => ctx ++ [sentimentSentence s]
  | none => ctx

/-! ### Theorems -/

/-- C5: `index_documents` with an empty documents list is a no-op: it
returns 0, does not persist, leaves the agent state unchanged, and hence
every subsequent retrieval result is unchanged. -/
theorem index_documents_empty_noop (st : AgentState) (metadata : Option (List Metadata)) :
    index_documents st [] metadata = (.ok 0, st, false)
    ∧ ∀ score q k,
        retrieve_top_k_chunks score (index_documents st [] metadata).2.1 q k =
          retrieve_top_k_chunks score st q k := by
  refine ⟨rfl, ?_⟩
  intro score q k
  rfl

/-- C10: for every request, the analysis endpoint returns a non-null
portfolio allocation and the fixed non-null market sentiment, so the 404
branch is unreachable for every input. -/
theorem analyze_always_returns_insights (req : AnalysisRequest) :
    analyze_market_data_endpoint req =
      .ok { portfolio_allocation := some
              { sector := "Asia tech",
                current_percentage := req.asia_tech_aum_today_percent,
                previous_percentage := req.asia_tech_aum_yesterday_percent,
                change_points := round2
                  (req.asia_tech_aum_today_percent - req.asia_tech_aum_yesterday_percent) },
            earnings_summaries := deriveEarnings req.raw_data.earnings_surprises,
            market_sentiment := some fixedSentiment }
    ∧ ∀ e, analyze_market_data_endpoint req ≠ .error e := by
  constructor
  · simp [analyze_market_data_endpoint]
  · intro e h
    simp [analyze_market_data_endpoint] at h

/-- C6: earnings derivation produces one insight per record with a
non-null surprise percentage, in order, with direction `"beat"` exactly
when the surprise is nonnegative and `"miss"` otherwise, magnitude the
absolute surprise, and the reason given by the fixed two-entry lookup;
records with a null surprise are skipped silently. -/
theorem deriveEarnings_spec (records : List EarningsDataInput) :
    deriveEarnings records =
      (records.filter fun e => e.surprise_percent.isSome).map fun e =>
        { company_name := e.name,
          symbol := e.symbol,
          surprise_type := if 0 ≤ e.surprise_percent.getD 0 then "beat" else "miss",
          percentage := |e.surprise_percent.getD 0|,
          reason_keywords := reasonLookup e.symbol e.name } := by
  induction records with
  | nil => rfl
  | cons e rest ih =>
    cases h : e.surprise_percent with
    | none => simp [deriveEarnings, h, List.filter_cons, ih]
    | some s => simp [deriveEarnings, h, List.filter_cons, ih]

/-- C7: the context passed to the narrative generator is the retrieved
chunks, in order, followed by one rendered sentence per non-null
insight, in the fixed order allocation, earnings (one per record),
sentiment. -/
theorem assembleContext_spec (chunks : List String)
    (alloc : Option PortfolioAllocationInsight)
    (earnings : List EarningsSummary)
    (sentiment : Option MarketSentimentInsight) :
    assembleContext chunks alloc earnings sentiment =
      chunks ++ alloc.toList.map allocSentence ++ earnings.map earningsSentence
        ++ sentiment.toList.map sentimentSentence := by
  cases alloc <;> cases sentiment <;> simp [assembleContext]

/-- C9: every `generate_market_brief` request fails at the FETCH_DATA
step: the call to `get_daily_market_data_from_api_agent` supplies no
arguments while the function requires `api_agent_base_url`, so it raises
`TypeError` on every invocation, which the orchestrator maps to the
500-class "Error fetching data" response (never the 503-class connection
response); no request ever reaches FORMAT_DOCS. -/
theorem every_request_fails_fetch (outcome : FetchOutcome)
    (rest : RawMarketData → Except HTTPError String) :
    orchestrator_call_args = none
    ∧ call_get_daily_market_data orchestrator_call_args outcome =
        .error (.typeError missingArgMsg)
    ∧ generate_market_brief outcome rest =
        (.error { status_code := 500,
                  detail := "Error fetching data from API Agent: " ++ missingArgMsg },
         [OrchStep.FETCH_DATA])
    ∧ OrchStep.FORMAT_DOCS ∉ (generate_market_brief outcome rest).2
    ∧ ∀ d, (generate_market_brief outcome rest).1 ≠
        .error { status_code := 503, detail := d } := by
  refine ⟨rfl, rfl, rfl, ?_, ?_⟩
  · show OrchStep.FORMAT_DOCS ∉ [OrchStep.FETCH_DATA]
    decide
  · intro d h
    have : (500 : Nat) = 503 := congrArg HTTPError.status_code (Except.error.inj h)
    exact absurd this (by decide)

/-- C8: evaluating the orchestrator at a concrete request where the API
agent would be reachable: the fetch step still fails (the missing
`api_agent_base_url` argument raises `TypeError`), the request aborts
before FORMAT_DOCS with the 500-class response, not the 503-class
`UpstreamUnavailable` response the spec requires. -/
theorem fetch_failure_surfaces_500 :
    generate_market_brief (.networkError "connection refused") (fun _ => .ok "brief")
      = (.error { status_code := 500,
                  detail := "Error fetching data from API Agent: " ++ missingArgMsg },
         [OrchStep.FETCH_DATA])
    ∧ OrchStep.FORMAT_DOCS ∉
        (generate_market_brief (.networkError "connection refused")
          (fun _ => .ok "brief")).2
    ∧ (500 : Nat) ≠ 503 := by
  refine ⟨rfl, ?_, by decide⟩
  show OrchStep.FORMAT_DOCS ∉ [OrchStep.FETCH_DATA]
  decide

/-- C1: when no persisted index exists, or loading it fails,
initialization bootstraps an index holding exactly the placeholder
document and persists it; on that store `query("anything", 5)` returns
exactly the one placeholder document, and a similarity query never fails
for lack of data. -/
theorem bootstrap_placeholder_query (score : String → Document → ℚ)
    (load : LoadOutcome) (h : load = .loadFailed ∨ load = .noPath) :
    load_or_create_vector_store load .ok = .ok ([placeholderDoc], true)
    ∧ retriever_agent_instance load .ok = some { vectorstore := some [placeholderDoc] }
    ∧ retrieve_top_k_chunks score { vectorstore := some [placeholderDoc] } "anything" 5 =
        .ok [placeholderDoc.page_content]
    ∧ ∀ q k, ∃ chunks,
        retrieve_top_k_chunks score { vectorstore := some [placeholderDoc] } q k =
          .ok chunks := by
  have h1 : load_or_create_vector_store load .ok = .ok ([placeholderDoc], true) := by
    rcases h with h | h <;> subst h <;> rfl
  refine ⟨h1, ?_, rfl, fun q k => ⟨_, rfl⟩⟩
  unfold retriever_agent_instance
  rw [h1]

/-- C1 witness: instantiated at a missing persisted index and a constant
score function. -/
theorem bootstrap_placeholder_query_witness :
    load_or_create_vector_store .noPath .ok = .ok ([placeholderDoc], true)
    ∧ retriever_agent_instance .noPath .ok = some { vectorstore := some [placeholderDoc] }
    ∧ retrieve_top_k_chunks (fun _ _ => 0) { vectorstore := some [placeholderDoc] }
        "anything" 5 = .ok ["initial document for empty index"] :=
  ⟨(bootstrap_placeholder_query (fun _ _ => 0) .noPath (Or.inr rfl)).1,
   (bootstrap_placeholder_query (fun _ _ => 0) .noPath (Or.inr rfl)).2.1,
   (bootstrap_placeholder_query (fun _ _ => 0) .noPath (Or.inr rfl)).2.2.1⟩

/-- C2 counterexample: `["a"]` is non-empty and the supplied metadata
list `[]` has a different length, yet `index_documents` does not fail:
it succeeds with count 1, mutates the store and persists (the empty
metadata list is falsy in Python, so the mismatch guard is skipped). -/
theorem index_documents_empty_metadata_cex :
    (["a"] : List String) ≠ []
    ∧ (["a"] : List String).length ≠ ([] : List Metadata).length
    ∧ index_documents { vectorstore := some [placeholderDoc] } ["a"] (some []) =
        (.ok 1,
         { vectorstore := some [placeholderDoc, { page_content := "a", metadata := [] }] },
         true) := by
  refine ⟨by decide, by decide, rfl⟩

/-- C2 amended: for every non-empty documents list and every supplied
*non-empty* metadata list whose length differs from the documents list,
`index_documents` raises the length-mismatch `ValueError` and performs
no mutation: the state is unchanged and no persist occurs. -/
theorem index_documents_metadata_mismatch (st : AgentState)
    (documents : List String) (m : List Metadata)
    (hd : documents ≠ []) (hm : m ≠ []) (hl : documents.length ≠ m.length) :
    index_documents st documents (some m) =
      (.error (.valueError
        "RetrieverAgent: Length of documents and metadata must match if metadata is provided."),
       st, false) := by
  have h1 : documents.isEmpty = false := by
    simpa [List.isEmpty_iff] using hd
  have h2 : pyTruthy (some m) = true := by
    simp [pyTruthy, List.isEmpty_iff, hm]
  simp [index_documents, h1, h2, hl]

/-- C2 amended witness: one document against two metadata entries. -/
theorem index_documents_metadata_mismatch_witness :
    index_documents { vectorstore := some [placeholderDoc] } ["a"] (some [[], []]) =
      (.error (.valueError
        "RetrieverAgent: Length of documents and metadata must match if metadata is provided."),
       { vectorstore := some [placeholderDoc] }, false) :=
  index_documents_metadata_mismatch { vectorstore := some [placeholderDoc] }
    ["a"] [[], []] (by decide) (by decide) (by decide)

/-- C3: retrieval returns the up-to-`k` nearest stored documents,
ordered nearest-first by the similarity score; it returns at most `k`
chunks, exactly `min k n` on a store of `n` documents (so fewer than `k`
stored documents is not a failure), and `k` defaults to 5. -/
theorem retrieve_top_k_spec (score : String → Document → ℚ) (st : AgentState)
    (docs : List Document) (q : String) (k : Nat)
    (h : st.vectorstore = some docs) :
    retrieve_top_k_chunks score st q k =
        .ok ((similaritySearch (score q) docs k).map Document.page_content)
    ∧ ((similaritySearch (score q) docs k).map Document.page_content).length ≤ k
    ∧ ((similaritySearch (score q) docs k).map Document.page_content).length =
        min k docs.length
    ∧ (similaritySearch (score q) docs k).Sorted (fun a b => score q a ≤ score q b)
    ∧ retrieve_top_k_chunks score st q = retrieve_top_k_chunks score st q 5 := by
  have hlen : ((similaritySearch (score q) docs k).map Document.page_content).length =
      min k docs.length := by
    simp [similaritySearch, List.length_take, List.length_insertionSort]
  refine ⟨by simp [retrieve_top_k_chunks, h], ?_, hlen, ?_, rfl⟩
  · rw [hlen]; exact Nat.min_le_left _ _
  · haveI : IsTotal Document fun a b => score q a ≤ score q b :=
      ⟨fun a b => le_total _ _⟩
    haveI : IsTrans Document fun a b => score q a ≤ score q b :=
      ⟨fun _ _ _ => le_trans⟩
    exact List.Pairwise.sublist (List.take_sublist _ _)
      (List.sorted_insertionSort _ docs)

/-- C3 witness: a one-document store queried with `k = 2`. -/
theorem retrieve_top_k_spec_witness :
    retrieve_top_k_chunks (fun _ _ => 0) { vectorstore := some [placeholderDoc] } "x" 2 =
        .ok ["initial document for empty index"]
    ∧ (["initial document for empty index"] : List String).length ≤ 2 :=
  ⟨(retrieve_top_k_spec (fun _ _ => 0) { vectorstore := some [placeholderDoc] }
      [placeholderDoc] "x" 2 rfl).1,
   (retrieve_top_k_spec (fun _ _ => 0) { vectorstore := some [placeholderDoc] }
      [placeholderDoc] "x" 2 rfl).2.1⟩

/-- C4 counterexample: with the agent instance uninitialized, both
endpoints fail with status code 500, not the 503-class
`ServiceUnavailable` condition the claim states. -/
theorem uninitialized_endpoint_status_cex :
    (index_data_endpoint none { documents := ["d"] }).1 =
        .error { status_code := 500, detail := notInitializedDetail }
    ∧ (retrieve_chunks_endpoint (fun _ _ => 0) none { query := "q" }).1 =
        .error { status_code := 500, detail := notInitializedDetail }
    ∧ (500 : Nat) ≠ 503 :=
  ⟨rfl, rfl, by decide⟩

/-- C4 amended: a load failure silently falls back to bootstrap; if
bootstrap itself also fails, initialization leaves the instance `None`,
and every later `index_data` and `retrieve_chunks` call fails with the
HTTP 500 "Retriever Agent is not initialized" error without touching any
index state. -/
theorem init_failure_refuses_operations (load : LoadOutcome)
    (req : IndexRequest) (rreq : RetrieveRequest) (score : String → Document → ℚ)
    (h : load = .loadFailed ∨ load = .noPath) :
    load_or_create_vector_store .loadFailed .ok = .ok ([placeholderDoc], true)
    ∧ retriever_agent_instance load .failed = none
    ∧ index_data_endpoint none req =
        (.error { status_code := 500, detail := notInitializedDetail }, none)
    ∧ retrieve_chunks_endpoint score none rreq =
        (.error { status_code := 500, detail := notInitializedDetail }, none) := by
  refine ⟨rfl, ?_, rfl, rfl⟩
  rcases h with h | h <;> subst h <;> rfl

/-- C4 amended witness: bootstrap fails after a load failure; concrete
requests against the uninitialized instance. -/
theorem init_failure_refuses_operations_witness :
    retriever_agent_instance .loadFailed .failed = none
    ∧ index_data_endpoint none { documents := ["d"] } =
        (.error { status_code := 500, detail := notInitializedDetail }, none)
    ∧ retrieve_chunks_endpoint (fun _ _ => 0) none { query := "q" } =
        (.error { status_code := 500, detail := notInitializedDetail }, none) :=
  ⟨(init_failure_refuses_operations .loadFailed { documents := ["d"] }
      { query := "q" } (fun _ _ => 0) (Or.inl rfl)).2.1,
   (init_failure_refuses_operations .loadFailed { documents := ["d"] }
      { query := "q" } (fun _ _ => 0) (Or.inl rfl)).2.2.1,
   (init_failure_refuses_operations .loadFailed { documents := ["d"] }
      { query := "q" } (fun _ _ => 0) (Or.inl rfl)).2.2.2⟩

end MarketBrief
